import Mathlib

/-
Verification of the OMPL-interface state validity checker
(ompl_interface::StateValidityChecker and
ompl_interface::ConstrainedPlanningStateValidityChecker).

The C++ source is shallowly embedded as pure Lean functions.  Doubles are
modelled as an inductive type over the rationals extended with positive
infinity and NaN (the only non-finite values the checker manipulates:
std::numeric_limits<double>::infinity() in clearance, Eigen hasNaN in the
boolean overload).  External collaborators (space information bounds,
configuration translation, path constraints, feasibility predicate,
collision world) are deterministic functions bundled in an Env record, and
every collaborator invocation is logged in a trace so that short-circuit
and "no gate ran" properties are expressible.
-/

namespace StateValidity

/-- Scalar double value as manipulated by the checker: a finite rational,
positive infinity, or NaN. -/
inductive D where
  | fin : ℚ → D
  | pinf : D
  | nan : D
deriving DecidableEq, Repr

/-- One component is NaN (Eigen component-wise predicate). -/
def D.isNaN : D → Bool
  | D.nan => true
  | _ => false

/-- Eigen VectorXd::hasNaN over the joint-position vector. -/
def hasNaN (v : List D) : Bool := v.any D.isNaN

/-- collision_detection::CollisionRequest, restricted to the fields the
checker sets at construction (lines 54-68 of the source): group_name,
distance, cost, verbose. -/
structure CollisionRequest where
  group_name : String
  distance : Bool
  cost : Bool
  verbose : Bool
deriving DecidableEq, Repr

/-- collision_detection::CostSource: a cost weight plus a spatial extent.
External type; per the spec each cost source carries "a cost weight and a
spatial extent/volume", so the extent is carried directly as its volume. -/
structure CostSource where
  cost : ℚ
  volume : ℚ
deriving DecidableEq, Repr

/-- Modelled from the spec: CostSource::getVolume is defined outside this
repository; the spec says a cost source carries "a cost weight and a
spatial extent/volume", so getVolume returns the carried volume. -/
def CostSource.getVolume (cs : CostSource) : ℚ := cs.volume

/-- collision_detection::CollisionResult, restricted to the fields the
checker reads: collision flag, distance, cost sources. -/
structure CollisionResult where
  collision : Bool
  distance : ℚ
  cost_sources : List CostSource
deriving DecidableEq, Repr

/-- The per-state mutable cache block carried by a
ModelBasedStateSpace::StateType.  Modelled from the spec: the StateType
class lives in a header outside src/; the spec (section 3) describes its
cache block as the fields validity_known, marked_valid, distance_known,
distance, written through mark-valid / mark-invalid /
mark-invalid-with-distance. -/
structure StateCache where
  validity_known : Bool
  marked_valid : Bool
  distance_known : Bool
  distance : ℚ
deriving DecidableEq, Repr

/-- StateType::isValidityKnown. -/
def StateCache.isValidityKnown (k : StateCache) : Bool := k.validity_known

/-- StateType::isMarkedValid. -/
def StateCache.isMarkedValid (k : StateCache) : Bool := k.marked_valid

/-- StateType::isGoalDistanceKnown. -/
def StateCache.isGoalDistanceKnown (k : StateCache) : Bool := k.distance_known

/-- StateType::markValid (no distance): validity becomes known and valid. -/
def StateCache.markValid (k : StateCache) : StateCache :=
  { k with validity_known := true, marked_valid := true }

/-- StateType::markInvalid (no distance): validity becomes known, invalid. -/
def StateCache.markInvalid (k : StateCache) : StateCache :=
  { k with validity_known := true, marked_valid := false }

/-- StateType::markInvalid(dist): invalid with a known distance. -/
def StateCache.markInvalidDist (k : StateCache) (d : ℚ) : StateCache :=
  { k with validity_known := true, marked_valid := false,
           distance_known := true, distance := d }

/-- An ambient planner state (ModelBasedStateSpace::StateType): its
geometric content plus the mutable cache block it carries. -/
structure OmplState where
  vals : List D
  cache : StateCache
deriving DecidableEq, Repr

/-- A constrained-space state (ConstrainedStateSpace::StateType): the
projected representation consumed by satisfiesBounds and copyToRobotState,
wrapping the ambient state whose cache block the gates read and write
(getState exposes, not copies, it). -/
structure WrappedState where
  wvals : List D
  ambient : OmplState
deriving DecidableEq, Repr

/-- ConstrainedStateSpace::StateType::getState — the State Unwrapper. -/
def WrappedState.getState (w : WrappedState) : OmplState := w.ambient

/-- The deterministic external collaborators of one checker call:
space-information bounds, configuration translation into the scratch
robot state, the optional path-constraint set, the feasibility predicate,
the collision world, and joint-group position extraction. -/
structure Env where
  satisfiesBounds : List D → Bool
  copyToRobotState : List D → List D
  hasPathConstraints : Bool
  decide : List D → Bool → Bool × ℚ
  isStateFeasible : List D → Bool → Bool
  checkCollision : CollisionRequest → List D → CollisionResult
  copyJointGroupPositions : List D → List D

/-- One logged collaborator invocation. -/
inductive Call where
  | bounds
  | translate
  | constraintDecide
  | feasibility
  | collision (req : CollisionRequest)
deriving DecidableEq, Repr

/-- The checker's own persistent fields: the planning group name (baked
into the collision-request templates at construction) and the verbose_
flag toggled by setVerbose. -/
structure StateValidityChecker where
  group_name : String
  verbose_ : Bool
deriving DecidableEq, Repr

/-- Constructor state (lines 47-69): verbose_ starts false. -/
def StateValidityChecker.init (g : String) : StateValidityChecker :=
  { group_name := g, verbose_ := false }

/-- StateValidityChecker::setVerbose (lines 71-74). -/
def StateValidityChecker.setVerbose (c : StateValidityChecker) (flag : Bool) :
    StateValidityChecker :=
  { c with verbose_ := flag }

/-- collision_request_simple_: only the group name is set. -/
def StateValidityChecker.collision_request_simple (c : StateValidityChecker) :
    CollisionRequest :=
  { group_name := c.group_name, distance := false, cost := false, verbose := false }

/-- collision_request_simple_verbose_: simple template with verbose set. -/
def StateValidityChecker.collision_request_simple_verbose (c : StateValidityChecker) :
    CollisionRequest :=
  { group_name := c.group_name, distance := false, cost := false, verbose := true }

/-- collision_request_with_distance_: distance flag set. -/
def StateValidityChecker.collision_request_with_distance (c : StateValidityChecker) :
    CollisionRequest :=
  { group_name := c.group_name, distance := true, cost := false, verbose := false }

/-- collision_request_with_distance_verbose_: distance and verbose set. -/
def StateValidityChecker.collision_request_with_distance_verbose (c : StateValidityChecker) :
    CollisionRequest :=
  { group_name := c.group_name, distance := true, cost := false, verbose := true }

/-- collision_request_with_cost_: cost flag set (no verbose variant). -/
def StateValidityChecker.collision_request_with_cost (c : StateValidityChecker) :
    CollisionRequest :=
  { group_name := c.group_name, distance := false, cost := true, verbose := false }

/-- Result of a boolean isValid call: returned verdict, the state's cache
block after the call, and the trace of collaborator invocations. -/
structure BoolVerdict where
  valid : Bool
  cache : StateCache
  trace : List Call
deriving DecidableEq, Repr

/-- Result of a distance-returning isValid call: returned verdict, the
value left in the double& dist output argument, the cache block after the
call, and the collaborator trace. -/
structure DistVerdict where
  valid : Bool
  dist : ℚ
  cache : StateCache
  trace : List Call
deriving DecidableEq, Repr

/-- Result of a cost call. -/
structure CostVerdict where
  value : ℚ
  cache : StateCache
  trace : List Call
deriving DecidableEq, Repr

/-- Result of a clearance call. -/
structure ClearVerdict where
  value : D
  trace : List Call
deriving DecidableEq, Repr

/-- StateValidityChecker::isValid(state, verbose), source lines 76-135.
Faithful to the source, including the result-variable shadowing: line 117
sets `collision = true` on a checker-level result field (the identifier
`res` in scope there; the only `res` declared in this function is the
local introduced later, at line 121, inside the hasNaN-guarded block, so
the line-117/134 occurrences resolve to the field from the class header),
while the collision query at lines 121-123 fills that shadowing local.
Hence the marking at lines 124-131 follows the actual collision outcome,
but the value returned at line 134 is the defaulted `!true = false`. -/
def StateValidityChecker.isValid (c : StateValidityChecker) (env : Env)
    (s : OmplState) (verbose : Bool) : BoolVerdict :=
  -- Use cached validity if it is available
  if s.cache.isValidityKnown then
    { valid := s.cache.isMarkedValid, cache := s.cache, trace := [] }
  else if !(env.satisfiesBounds s.vals) then
    { valid := false, cache := s.cache.markInvalid, trace := [Call.bounds] }
  else
    let rs := env.copyToRobotState s.vals
    if env.hasPathConstraints && !((env.decide rs verbose).1) then
      { valid := false, cache := s.cache.markInvalid,
        trace := [Call.bounds, Call.translate, Call.constraintDecide] }
    else
      let ctrace := if env.hasPathConstraints then [Call.constraintDecide] else []
      if !(env.isStateFeasible rs verbose) then
        { valid := false, cache := s.cache.markInvalid,
          trace := [Call.bounds, Call.translate] ++ ctrace ++ [Call.feasibility] }
      else
        let joint_positions := env.copyJointGroupPositions rs
        -- line 117: outer result field res.collision := true ("by default")
        if !(hasNaN joint_positions) then
          let req := if verbose then c.collision_request_simple_verbose
                     else c.collision_request_simple
          let res := env.checkCollision req rs  -- local res, shadows the field
          { valid := false,  -- line 134 reads the field: !true
            cache := if !res.collision then s.cache.markValid else s.cache.markInvalid,
            trace := [Call.bounds, Call.translate] ++ ctrace
                       ++ [Call.feasibility, Call.collision req] }
        else
          { valid := false, cache := s.cache,
            trace := [Call.bounds, Call.translate] ++ ctrace ++ [Call.feasibility] }

/-- StateValidityChecker::isValid(state, dist, verbose), source lines
137-187.  dist0 is the value held by the caller's double& dist argument on
entry; paths that never assign dist leave it at dist0. -/
def StateValidityChecker.isValidDist (c : StateValidityChecker) (env : Env)
    (s : OmplState) (dist0 : ℚ) (verbose : Bool) : DistVerdict :=
  if s.cache.isValidityKnown && s.cache.isGoalDistanceKnown then
    { valid := s.cache.isMarkedValid, dist := s.cache.distance,
      cache := s.cache, trace := [] }
  else if !(env.satisfiesBounds s.vals) then
    -- line 154: markInvalid(0.0); dist is not assigned on this path
    { valid := false, dist := dist0, cache := s.cache.markInvalidDist 0,
      trace := [Call.bounds] }
  else
    let rs := env.copyToRobotState s.vals
    if env.hasPathConstraints && !((env.decide rs verbose).1) then
      let cer := env.decide rs verbose
      -- lines 168-169: dist = cer.distance; markInvalid(dist)
      { valid := false, dist := cer.2, cache := s.cache.markInvalidDist cer.2,
        trace := [Call.bounds, Call.translate, Call.constraintDecide] }
    else
      let ctrace := if env.hasPathConstraints then [Call.constraintDecide] else []
      if !(env.isStateFeasible rs verbose) then
        -- lines 177-178: dist = 0.0; return false — no cache write
        { valid := false, dist := 0, cache := s.cache,
          trace := [Call.bounds, Call.translate] ++ ctrace ++ [Call.feasibility] }
      else
        let req := if verbose then c.collision_request_with_distance_verbose
                   else c.collision_request_with_distance
        let res := env.checkCollision req rs
        -- lines 185-186: dist = res.distance; return !res.collision — no cache write
        { valid := !res.collision, dist := res.distance, cache := s.cache,
          trace := [Call.bounds, Call.translate] ++ ctrace
                     ++ [Call.feasibility, Call.collision req] }

/-- StateValidityChecker::cost(state), source lines 189-207: always
translate, issue one cost-mode collision query, sum cost times volume over
the reported cost sources; the cache is never read or written. -/
def StateValidityChecker.cost (c : StateValidityChecker) (env : Env)
    (s : OmplState) : CostVerdict :=
  let rs := env.copyToRobotState s.vals
  let res := env.checkCollision c.collision_request_with_cost rs
  { value := res.cost_sources.foldl (fun acc cs => acc + cs.cost * cs.getVolume) 0,
    cache := s.cache,
    trace := [Call.translate, Call.collision c.collision_request_with_cost] }

/-- StateValidityChecker::clearance(state), source lines 209-218:
distance-mode collision query; 0.0 if in collision, else the reported
distance, with a negative reported distance mapped to +infinity. -/
def StateValidityChecker.clearance (c : StateValidityChecker) (env : Env)
    (s : OmplState) : ClearVerdict :=
  let rs := env.copyToRobotState s.vals
  let res := env.checkCollision c.collision_request_with_distance rs
  { value := if res.collision then D.fin 0
             else if res.distance < 0 then D.pinf else D.fin res.distance,
    trace := [Call.translate, Call.collision c.collision_request_with_distance] }

/-- Modelled from the spec: the overload isValid(state) without a verbose
flag is declared in the class header, which is outside src/; per the spec,
setVerbose is a "process-wide toggle affecting default verbosity of
subsequent calls that don't pass an explicit flag", so the default
overload delegates with verbose_ as the flag. -/
def StateValidityChecker.isValidDefault (c : StateValidityChecker) (env : Env)
    (s : OmplState) : BoolVerdict :=
  StateValidityChecker.isValid c env s c.verbose_

/-- Modelled from the spec: the distance overload without a verbose flag,
declared in the missing header, delegates with verbose_ (same rationale as
isValidDefault). -/
def StateValidityChecker.isValidDistDefault (c : StateValidityChecker) (env : Env)
    (s : OmplState) (dist0 : ℚ) : DistVerdict :=
  StateValidityChecker.isValidDist c env s dist0 c.verbose_

/-- ConstrainedPlanningStateValidityChecker::isValid(wrapped_state,
verbose), source lines 223-275.  The cache block read and written is the
one carried by the unwrapped ambient state; satisfiesBounds and
copyToRobotState both consume the wrapped state (lines 236, 245, per the
source comments).  No NaN guard and no result shadowing here: the verdict
returned is the actual collision outcome. -/
def ConstrainedPlanningStateValidityChecker.isValid (c : StateValidityChecker)
    (env : Env) (w : WrappedState) (verbose : Bool) : BoolVerdict :=
  let state := w.getState
  if state.cache.isValidityKnown then
    { valid := state.cache.isMarkedValid, cache := state.cache, trace := [] }
  else if !(env.satisfiesBounds w.wvals) then
    { valid := false, cache := state.cache.markInvalid, trace := [Call.bounds] }
  else
    let rs := env.copyToRobotState w.wvals
    if env.hasPathConstraints && !((env.decide rs verbose).1) then
      { valid := false, cache := state.cache.markInvalid,
        trace := [Call.bounds, Call.translate, Call.constraintDecide] }
    else
      let ctrace := if env.hasPathConstraints then [Call.constraintDecide] else []
      if !(env.isStateFeasible rs verbose) then
        { valid := false, cache := state.cache.markInvalid,
          trace := [Call.bounds, Call.translate] ++ ctrace ++ [Call.feasibility] }
      else
        let req := if verbose then c.collision_request_simple_verbose
                   else c.collision_request_simple
        let res := env.checkCollision req rs
        { valid := !res.collision,
          cache := if !res.collision then state.cache.markValid
                   else state.cache.markInvalid,
          trace := [Call.bounds, Call.translate] ++ ctrace
                     ++ [Call.feasibility, Call.collision req] }

/-- ConstrainedPlanningStateValidityChecker::isValid(wrapped_state, dist,
verbose), source lines 277-326.  On constraint failure (lines 307-310) the
state is marked invalid WITHOUT a distance and dist is left unassigned. -/
def ConstrainedPlanningStateValidityChecker.isValidDist (c : StateValidityChecker)
    (env : Env) (w : WrappedState) (dist0 : ℚ) (verbose : Bool) : DistVerdict :=
  let state := w.getState
  if state.cache.isValidityKnown && state.cache.isGoalDistanceKnown then
    { valid := state.cache.isMarkedValid, dist := state.cache.distance,
      cache := state.cache, trace := [] }
  else if !(env.satisfiesBounds w.wvals) then
    { valid := false, dist := dist0, cache := state.cache.markInvalidDist 0,
      trace := [Call.bounds] }
  else
    let rs := env.copyToRobotState w.wvals
    if env.hasPathConstraints && !((env.decide rs verbose).1) then
      -- line 309: markInvalid() with no distance; dist is not assigned
      { valid := false, dist := dist0, cache := state.cache.markInvalid,
        trace := [Call.bounds, Call.translate, Call.constraintDecide] }
    else
      let ctrace := if env.hasPathConstraints then [Call.constraintDecide] else []
      if !(env.isStateFeasible rs verbose) then
        { valid := false, dist := 0, cache := state.cache,
          trace := [Call.bounds, Call.translate] ++ ctrace ++ [Call.feasibility] }
      else
        let req := if verbose then c.collision_request_with_distance_verbose
                   else c.collision_request_with_distance
        let res := env.checkCollision req rs
        { valid := !res.collision, dist := res.distance, cache := state.cache,
          trace := [Call.bounds, Call.translate] ++ ctrace
                     ++ [Call.feasibility, Call.collision req] }

/-- A cache block with nothing known yet. -/
def cacheU : StateCache :=
  { validity_known := false, marked_valid := false, distance_known := false,
    distance := 0 }

/-- A concrete checker instance. -/
def c0 : StateValidityChecker := StateValidityChecker.init "arm"

/-- An environment in which every gate passes: bounds satisfied, identity
translation, no path constraints, feasible, collision-free with reported
distance 1, identity joint-group extraction. -/
def envAllPass : Env :=
  { satisfiesBounds := fun _ => true
    copyToRobotState := fun v => v
    hasPathConstraints := false
    decide := fun _ _ => (true, 0)
    isStateFeasible := fun _ _ => true
    checkCollision := fun _ _ => { collision := false, distance := 1, cost_sources := [] }
    copyJointGroupPositions := fun v => v }

/-- Like envAllPass but the feasibility predicate rejects. -/
def envInfeasible : Env := { envAllPass with isStateFeasible := fun _ _ => false }

/-- Like envAllPass but with an attached constraint set reporting
unsatisfied with signed distance 3. -/
def envConstraintFail : Env :=
  { envAllPass with hasPathConstraints := true, decide := fun _ _ => (false, 3) }

/-- Like envAllPass but bounds are violated. -/
def envBoundsFail : Env := { envAllPass with satisfiesBounds := fun _ => false }

/-- Like envAllPass but the collision world reports two cost sources. -/
def envCost : Env :=
  { envAllPass with checkCollision := fun _ _ =>
      { collision := false, distance := 2,
        cost_sources := [{ cost := 2, volume := 3 }, { cost := 5, volume := 7 }] } }

/-- An uncached ambient state with a NaN-free configuration. -/
def s0 : OmplState := { vals := [D.fin 0], cache := cacheU }

/-- An uncached ambient state whose configuration contains a NaN. -/
def sNaN : OmplState := { vals := [D.nan], cache := cacheU }

/-- s0 wrapped in a constrained-space state. -/
def w0 : WrappedState := { wvals := [D.fin 0], ambient := s0 }

/-- sNaN wrapped in a constrained-space state. -/
def wNaN : WrappedState := { wvals := [D.nan], ambient := sNaN }

/-- C1: with identical all-pass collaborators and a collision-free scene,
the Basic Checker's boolean isValid on the ambient state s0 returns false
— even though it marks the state valid in the cache — while the
Constrained Checker on the wrapped counterpart w0 returns true, so the
claimed verdict equivalence fails on the code: the Basic Checker's return
statement reads the checker-level result flag defaulted to collision=true,
not the local collision result that the query filled. -/
theorem basic_constrained_collision_free_disagreement :
    (StateValidity.StateValidityChecker.isValid StateValidity.c0
        StateValidity.envAllPass StateValidity.s0 false).valid = false
  ∧ (StateValidity.StateValidityChecker.isValid StateValidity.c0
        StateValidity.envAllPass StateValidity.s0 false).cache.marked_valid = true
  ∧ (StateValidity.StateValidityChecker.isValid StateValidity.c0
        StateValidity.envAllPass StateValidity.s0 false).cache.validity_known = true
  ∧ (StateValidity.ConstrainedPlanningStateValidityChecker.isValid StateValidity.c0
        StateValidity.envAllPass StateValidity.w0 false).valid = true := by
  refine ⟨rfl, rfl, rfl, rfl⟩

/-- C2 counterexample: in the distance overload, a feasibility failure is
a terminal Invalid verdict, yet the call returns with the state's cache
block completely unchanged (validity still unknown), refuting the claim
that every terminal verdict is written back to the cache. -/
theorem dist_feasibility_no_cache_writeback :
    (StateValidity.StateValidityChecker.isValidDist StateValidity.c0
        StateValidity.envInfeasible StateValidity.s0 5 false).valid = false
  ∧ (StateValidity.StateValidityChecker.isValidDist StateValidity.c0
        StateValidity.envInfeasible StateValidity.s0 5 false).cache
      = StateValidity.s0.cache
  ∧ StateValidity.s0.cache.validity_known = false := by
  refine ⟨rfl, rfl, rfl⟩

/-- C3 counterexample: two consecutive distance-overload calls on the same
infeasible state return identical results, but the first call writes
nothing to the cache, so the second call re-evaluates the gate chain (its
collaborator trace is nonempty), refuting the claim that the second of two
consecutive calls performs zero gate evaluations. -/
theorem second_call_reevaluates_gates :
    (StateValidity.StateValidityChecker.isValidDist StateValidity.c0
        StateValidity.envInfeasible StateValidity.s0 5 false).cache
      = StateValidity.s0.cache
  ∧ (StateValidity.StateValidityChecker.isValidDist StateValidity.c0
        StateValidity.envInfeasible
        { vals := StateValidity.s0.vals
          cache := (StateValidity.StateValidityChecker.isValidDist StateValidity.c0
            StateValidity.envInfeasible StateValidity.s0 5 false).cache } 5 false).valid
      = (StateValidity.StateValidityChecker.isValidDist StateValidity.c0
          StateValidity.envInfeasible StateValidity.s0 5 false).valid
  ∧ (StateValidity.StateValidityChecker.isValidDist StateValidity.c0
        StateValidity.envInfeasible
        { vals := StateValidity.s0.vals
          cache := (StateValidity.StateValidityChecker.isValidDist StateValidity.c0
            StateValidity.envInfeasible StateValidity.s0 5 false).cache } 5 false).dist
      = (StateValidity.StateValidityChecker.isValidDist StateValidity.c0
          StateValidity.envInfeasible StateValidity.s0 5 false).dist
  ∧ (StateValidity.StateValidityChecker.isValidDist StateValidity.c0
        StateValidity.envInfeasible
        { vals := StateValidity.s0.vals
          cache := (StateValidity.StateValidityChecker.isValidDist StateValidity.c0
            StateValidity.envInfeasible StateValidity.s0 5 false).cache } 5 false).trace
      ≠ [] := by
  refine ⟨rfl, rfl, rfl, by decide⟩

/-- C4 counterexample: in the Constrained variant's distance overload, a
constraint set reporting unsatisfied with signed distance 3 leads to the
state being marked invalid WITHOUT any cached distance, and the output
distance argument is left at its caller-supplied value 7 rather than set
to 3, refuting the claim for that variant. -/
theorem constrained_constraint_fail_distance_not_propagated :
    (StateValidity.ConstrainedPlanningStateValidityChecker.isValidDist StateValidity.c0
        StateValidity.envConstraintFail StateValidity.w0 7 false).valid = false
  ∧ (StateValidity.ConstrainedPlanningStateValidityChecker.isValidDist StateValidity.c0
        StateValidity.envConstraintFail StateValidity.w0 7 false).dist = 7
  ∧ (StateValidity.ConstrainedPlanningStateValidityChecker.isValidDist StateValidity.c0
        StateValidity.envConstraintFail StateValidity.w0 7 false).cache.distance_known
      = false
  ∧ (StateValidity.envConstraintFail.decide StateValidity.w0.wvals false).2 = 3 := by
  refine ⟨rfl, rfl, rfl, rfl⟩

/-- C5 counterexample: the Basic Checker's distance overload has no NaN
guard: on an uncached, in-bounds, unconstrained, feasible state whose
configuration contains NaN, the collision collaborator IS invoked and the
call returns the collision verdict (true here, for a collision-free
scene), refuting the claim that every overload returns false without
reaching the collision collaborator. -/
theorem dist_overload_nan_reaches_collision :
    (StateValidity.StateValidityChecker.isValidDist StateValidity.c0
        StateValidity.envAllPass StateValidity.sNaN 0 false).valid = true
  ∧ StateValidity.Call.collision
        (StateValidity.c0.collision_request_with_distance)
      ∈ (StateValidity.StateValidityChecker.isValidDist StateValidity.c0
          StateValidity.envAllPass StateValidity.sNaN 0 false).trace := by
  refine ⟨rfl, by decide⟩

/-- C8: on a cache miss, a bounds violation short-circuits every overload
of both variants: the call returns false, marks the state invalid (with
cached distance 0 in the distance overloads), and its entire collaborator
trace is the single bounds query — so configuration translation and the
constraint, feasibility and collision collaborators are never invoked. -/
theorem bounds_violation_short_circuits (c : StateValidity.StateValidityChecker)
    (env : StateValidity.Env) (s : StateValidity.OmplState)
    (w : StateValidity.WrappedState) (d0 : ℚ) (verbose : Bool)
    (hs : s.cache.validity_known = false)
    (hw : w.ambient.cache.validity_known = false)
    (hb : env.satisfiesBounds s.vals = false)
    (hbw : env.satisfiesBounds w.wvals = false) :
    StateValidity.StateValidityChecker.isValid c env s verbose
      = { valid := false, cache := s.cache.markInvalid,
          trace := [StateValidity.Call.bounds] }
  ∧ StateValidity.StateValidityChecker.isValidDist c env s d0 verbose
      = { valid := false, dist := d0, cache := s.cache.markInvalidDist 0,
          trace := [StateValidity.Call.bounds] }
  ∧ StateValidity.ConstrainedPlanningStateValidityChecker.isValid c env w verbose
      = { valid := false, cache := w.ambient.cache.markInvalid,
          trace := [StateValidity.Call.bounds] }
  ∧ StateValidity.ConstrainedPlanningStateValidityChecker.isValidDist c env w d0 verbose
      = { valid := false, dist := d0, cache := w.ambient.cache.markInvalidDist 0,
          trace := [StateValidity.Call.bounds] } := by
  refine ⟨?_, ?_, ?_, ?_⟩
  · simp [StateValidity.StateValidityChecker.isValid,
      StateValidity.StateCache.isValidityKnown, hs, hb]
  · simp [StateValidity.StateValidityChecker.isValidDist,
      StateValidity.StateCache.isValidityKnown,
      StateValidity.StateCache.isGoalDistanceKnown, hs, hb]
  · simp [StateValidity.ConstrainedPlanningStateValidityChecker.isValid,
      StateValidity.WrappedState.getState,
      StateValidity.StateCache.isValidityKnown, hw, hbw]
  · simp [StateValidity.ConstrainedPlanningStateValidityChecker.isValidDist,
      StateValidity.WrappedState.getState,
      StateValidity.StateCache.isValidityKnown,
      StateValidity.StateCache.isGoalDistanceKnown, hw, hbw]

/-- C8 witness: the short-circuit theorem instantiated on the concrete
bounds-violating environment. -/
theorem bounds_violation_short_circuits_witness :
    StateValidity.StateValidityChecker.isValid StateValidity.c0
        StateValidity.envBoundsFail StateValidity.s0 false
      = { valid := false, cache := StateValidity.s0.cache.markInvalid,
          trace := [StateValidity.Call.bounds] }
  ∧ StateValidity.ConstrainedPlanningStateValidityChecker.isValidDist StateValidity.c0
        StateValidity.envBoundsFail StateValidity.w0 4 false
      = { valid := false, dist := 4,
          cache := StateValidity.w0.ambient.cache.markInvalidDist 0,
          trace := [StateValidity.Call.bounds] } := by
  have h := bounds_violation_short_circuits StateValidity.c0 StateValidity.envBoundsFail
    StateValidity.s0 StateValidity.w0 4 false rfl rfl rfl rfl
  exact ⟨h.1, h.2.2.2⟩

/-- C10: in the Basic Checker's boolean isValid, when the joint-position
vector extracted from the translated configuration contains NaN, the call
returns false while leaving the state's cache block completely unchanged
(the negative verdict is not memoized), its gate trace is nonempty, and a
later call on the same state re-runs exactly the same gate chain. -/
theorem basic_bool_nan_path_no_memoization (c : StateValidity.StateValidityChecker)
    (env : StateValidity.Env) (s : StateValidity.OmplState) (verbose : Bool)
    (hs : s.cache.validity_known = false)
    (hb : env.satisfiesBounds s.vals = true)
    (hk : (env.hasPathConstraints
            && !((env.decide (env.copyToRobotState s.vals) verbose).1)) = false)
    (hf : env.isStateFeasible (env.copyToRobotState s.vals) verbose = true)
    (hnan : StateValidity.hasNaN
        (env.copyJointGroupPositions (env.copyToRobotState s.vals)) = true) :
    (StateValidity.StateValidityChecker.isValid c env s verbose).valid = false
  ∧ (StateValidity.StateValidityChecker.isValid c env s verbose).cache = s.cache
  ∧ (StateValidity.StateValidityChecker.isValid c env s verbose).trace ≠ []
  ∧ StateValidity.StateValidityChecker.isValid c env
      { vals := s.vals
        cache := (StateValidity.StateValidityChecker.isValid c env s verbose).cache }
      verbose
      = StateValidity.StateValidityChecker.isValid c env s verbose := by
  have hmain : StateValidity.StateValidityChecker.isValid c env s verbose
      = { valid := false, cache := s.cache,
          trace := [StateValidity.Call.bounds, StateValidity.Call.translate]
            ++ (if env.hasPathConstraints then [StateValidity.Call.constraintDecide]
                else [])
            ++ [StateValidity.Call.feasibility] } := by
    simp [StateValidity.StateValidityChecker.isValid,
      StateValidity.StateCache.isValidityKnown, hs, hb, hk, hf, hnan]
  refine ⟨by rw [hmain], by rw [hmain], by rw [hmain]; simp, ?_⟩
  rw [hmain]
  exact hmain

/-- C10 witness: the NaN frame-effect theorem instantiated on the
concrete all-pass environment and the NaN-carrying state. -/
theorem basic_bool_nan_path_no_memoization_witness :
    (StateValidity.StateValidityChecker.isValid StateValidity.c0
        StateValidity.envAllPass StateValidity.sNaN false).valid = false
  ∧ (StateValidity.StateValidityChecker.isValid StateValidity.c0
        StateValidity.envAllPass StateValidity.sNaN false).cache
      = StateValidity.sNaN.cache := by
  have h := basic_bool_nan_path_no_memoization StateValidity.c0 StateValidity.envAllPass
    StateValidity.sNaN false rfl rfl rfl rfl rfl
  exact ⟨h.1, h.2.1⟩

/-- Folding cost plus weight-times-volume over a list equals the starting
accumulator plus the sum of the mapped contributions. -/
theorem cost_foldl_eq_sum (l : List StateValidity.CostSource) (a : ℚ) :
    List.foldl (fun acc cs => acc + cs.cost * cs.getVolume) a l
      = a + (l.map (fun cs => cs.cost * cs.getVolume)).sum := by
  induction l generalizing a with
  | nil => simp
  | cons hd tl ih =>
      simp only [List.foldl_cons, List.map_cons, List.sum_cons]
      rw [ih]
      ring

/-- C6: clearance issues a distance-mode collision query and maps its
result exactly as the claim states: 0.0 when in collision; the reported
distance d when not in collision and d is nonnegative; positive infinity
when not in collision and d is negative. -/
theorem clearance_collision_distance_mapping (c : StateValidity.StateValidityChecker)
    (env : StateValidity.Env) (s : StateValidity.OmplState) :
    ((env.checkCollision c.collision_request_with_distance
        (env.copyToRobotState s.vals)).collision = true →
      (StateValidity.StateValidityChecker.clearance c env s).value
        = StateValidity.D.fin 0)
  ∧ ((env.checkCollision c.collision_request_with_distance
        (env.copyToRobotState s.vals)).collision = false →
      0 ≤ (env.checkCollision c.collision_request_with_distance
            (env.copyToRobotState s.vals)).distance →
      (StateValidity.StateValidityChecker.clearance c env s).value
        = StateValidity.D.fin
            ((env.checkCollision c.collision_request_with_distance
              (env.copyToRobotState s.vals)).distance))
  ∧ ((env.checkCollision c.collision_request_with_distance
        (env.copyToRobotState s.vals)).collision = false →
      (env.checkCollision c.collision_request_with_distance
            (env.copyToRobotState s.vals)).distance < 0 →
      (StateValidity.StateValidityChecker.clearance c env s).value
        = StateValidity.D.pinf) := by
  refine ⟨fun hc => ?_, fun hc hd => ?_, fun hc hd => ?_⟩
  · simp [StateValidity.StateValidityChecker.clearance, hc]
  · simp [StateValidity.StateValidityChecker.clearance, hc, not_lt.mpr hd]
  · simp [StateValidity.StateValidityChecker.clearance, hc, hd]

/-- C6 witness: the clearance mapping applied at concrete collision
results — a colliding scene yields 0, a clean scene with distance 1 yields
1, and a clean scene reporting distance -2 yields positive infinity. -/
theorem clearance_collision_distance_mapping_witness :
    (StateValidity.StateValidityChecker.clearance StateValidity.c0
        { StateValidity.envAllPass with checkCollision := fun _ _ =>
            { collision := true, distance := 0, cost_sources := [] } }
        StateValidity.s0).value = StateValidity.D.fin 0
  ∧ (StateValidity.StateValidityChecker.clearance StateValidity.c0
        StateValidity.envAllPass StateValidity.s0).value = StateValidity.D.fin 1
  ∧ (StateValidity.StateValidityChecker.clearance StateValidity.c0
        { StateValidity.envAllPass with checkCollision := fun _ _ =>
            { collision := false, distance := -2, cost_sources := [] } }
        StateValidity.s0).value = StateValidity.D.pinf := by
  refine ⟨(clearance_collision_distance_mapping StateValidity.c0 _ StateValidity.s0).1 rfl,
    (clearance_collision_distance_mapping StateValidity.c0 _ StateValidity.s0).2.1 rfl
      (by decide),
    (clearance_collision_distance_mapping StateValidity.c0 _ StateValidity.s0).2.2 rfl
      (by decide)⟩

/-- C7: cost equals the sum, over the cost sources reported by the
cost-mode collision query, of cost weight times volume (hence 0 when no
cost sources are reported), it leaves the state's cache block unchanged,
and its value does not depend on the cache block at all. -/
theorem cost_sums_weighted_volumes (c : StateValidity.StateValidityChecker)
    (env : StateValidity.Env) (s : StateValidity.OmplState)
    (k1 k2 : StateValidity.StateCache) :
    (StateValidity.StateValidityChecker.cost c env s).value
      = ((env.checkCollision c.collision_request_with_cost
            (env.copyToRobotState s.vals)).cost_sources.map
          (fun cs => cs.cost * cs.getVolume)).sum
  ∧ ((env.checkCollision c.collision_request_with_cost
        (env.copyToRobotState s.vals)).cost_sources = [] →
      (StateValidity.StateValidityChecker.cost c env s).value = 0)
  ∧ (StateValidity.StateValidityChecker.cost c env s).cache = s.cache
  ∧ (StateValidity.StateValidityChecker.cost c env
        { vals := s.vals, cache := k1 }).value
      = (StateValidity.StateValidityChecker.cost c env
          { vals := s.vals, cache := k2 }).value := by
  refine ⟨?_, fun hnil => ?_, rfl, ?_⟩
  · simp [StateValidity.StateValidityChecker.cost, cost_foldl_eq_sum]
  · simp [StateValidity.StateValidityChecker.cost, hnil]
  · simp [StateValidity.StateValidityChecker.cost]

/-- C7 witness: cost applied on a scene reporting cost sources (2,3) and
(5,7) yields 2*3 + 5*7 = 41, and on a scene with no cost sources yields 0,
while the cache block is untouched. -/
theorem cost_sums_weighted_volumes_witness :
    (StateValidity.StateValidityChecker.cost StateValidity.c0
        StateValidity.envCost StateValidity.s0).value = 41
  ∧ (StateValidity.StateValidityChecker.cost StateValidity.c0
        StateValidity.envAllPass StateValidity.s0).value = 0
  ∧ (StateValidity.StateValidityChecker.cost StateValidity.c0
        StateValidity.envCost StateValidity.s0).cache = StateValidity.s0.cache := by
  have h1 := cost_sums_weighted_volumes StateValidity.c0 StateValidity.envCost
    StateValidity.s0 StateValidity.cacheU StateValidity.cacheU
  have h2 := cost_sums_weighted_volumes StateValidity.c0 StateValidity.envAllPass
    StateValidity.s0 StateValidity.cacheU StateValidity.cacheU
  refine ⟨?_, h2.2.1 rfl, h1.2.2.1⟩
  rw [h1.1]
  norm_num [StateValidity.envCost, StateValidity.envAllPass,
    StateValidity.CostSource.getVolume]

/-- Every collision request logged by the boolean basic isValid carries
exactly the verbose flag the call ran with. -/
theorem isValid_collision_request_verbose (c : StateValidity.StateValidityChecker)
    (env : StateValidity.Env) (s : StateValidity.OmplState) (v : Bool)
    (req : StateValidity.CollisionRequest)
    (hmem : StateValidity.Call.collision req
      ∈ (StateValidity.StateValidityChecker.isValid c env s v).trace) :
    req.verbose = v := by
  by_cases h1 : s.cache.isValidityKnown <;>
  by_cases h2 : env.satisfiesBounds s.vals <;>
  by_cases hpc : env.hasPathConstraints <;>
  by_cases h3 : (env.decide (env.copyToRobotState s.vals) v).1 <;>
  by_cases h4 : env.isStateFeasible (env.copyToRobotState s.vals) v <;>
  by_cases h5 : StateValidity.hasNaN
    (env.copyJointGroupPositions (env.copyToRobotState s.vals)) <;>
  cases v <;>
  simp_all [StateValidity.StateValidityChecker.isValid,
    StateValidity.StateCache.isValidityKnown,
    StateValidity.StateValidityChecker.collision_request_simple,
    StateValidity.StateValidityChecker.collision_request_simple_verbose]

/-- Every collision request logged by the distance-overload basic isValid
carries exactly the verbose flag the call ran with. -/
theorem isValidDist_collision_request_verbose (c : StateValidity.StateValidityChecker)
    (env : StateValidity.Env) (s : StateValidity.OmplState) (d0 : ℚ) (v : Bool)
    (req : StateValidity.CollisionRequest)
    (hmem : StateValidity.Call.collision req
      ∈ (StateValidity.StateValidityChecker.isValidDist c env s d0 v).trace) :
    req.verbose = v := by
  by_cases h1 : s.cache.isValidityKnown <;>
  by_cases h1d : s.cache.isGoalDistanceKnown <;>
  by_cases h2 : env.satisfiesBounds s.vals <;>
  by_cases hpc : env.hasPathConstraints <;>
  by_cases h3 : (env.decide (env.copyToRobotState s.vals) v).1 <;>
  by_cases h4 : env.isStateFeasible (env.copyToRobotState s.vals) v <;>
  cases v <;>
  simp_all [StateValidity.StateValidityChecker.isValidDist,
    StateValidity.StateCache.isValidityKnown,
    StateValidity.StateCache.isGoalDistanceKnown,
    StateValidity.StateValidityChecker.collision_request_with_distance,
    StateValidity.StateValidityChecker.collision_request_with_distance_verbose]

/-- C9: after setVerbose(f), the overloads that do not pass an explicit
verbose argument behave exactly as calls with verbose = f; in particular,
whenever the collision gate runs in such a call, the collision request it
issues carries verbose = f (the verbose template is selected exactly when
f is true). -/
theorem setVerbose_controls_default_verbosity (c : StateValidity.StateValidityChecker)
    (f : Bool) (env : StateValidity.Env) (s : StateValidity.OmplState) (d0 : ℚ) :
    StateValidity.StateValidityChecker.isValidDefault (c.setVerbose f) env s
      = StateValidity.StateValidityChecker.isValid (c.setVerbose f) env s f
  ∧ StateValidity.StateValidityChecker.isValidDistDefault (c.setVerbose f) env s d0
      = StateValidity.StateValidityChecker.isValidDist (c.setVerbose f) env s d0 f
  ∧ (∀ req : StateValidity.CollisionRequest,
      StateValidity.Call.collision req
          ∈ (StateValidity.StateValidityChecker.isValidDefault
              (c.setVerbose f) env s).trace →
        req.verbose = f)
  ∧ (∀ req : StateValidity.CollisionRequest,
      StateValidity.Call.collision req
          ∈ (StateValidity.StateValidityChecker.isValidDistDefault
              (c.setVerbose f) env s d0).trace →
        req.verbose = f) := by
  exact ⟨rfl, rfl,
    fun req hmem => isValid_collision_request_verbose (c.setVerbose f) env s f req hmem,
    fun req hmem => isValidDist_collision_request_verbose (c.setVerbose f) env s d0 f req hmem⟩

/-- C9 witness: with the flag set to true, a default (no explicit flag)
call on an all-pass environment runs the collision gate with the verbose
collision-request template, whose verbose field is true. -/
theorem setVerbose_controls_default_verbosity_witness :
    StateValidity.Call.collision
        ((StateValidity.c0.setVerbose true).collision_request_simple_verbose)
      ∈ (StateValidity.StateValidityChecker.isValidDefault
          (StateValidity.c0.setVerbose true) StateValidity.envAllPass
          StateValidity.s0).trace
  ∧ ((StateValidity.c0.setVerbose true).collision_request_simple_verbose).verbose
      = true := by
  refine ⟨by decide, ?_⟩
  exact (setVerbose_controls_default_verbosity StateValidity.c0 true
    StateValidity.envAllPass StateValidity.s0 0).2.2.1 _ (by decide)

/-- C2 (amended): on a cache miss, the boolean overloads write every
terminal verdict back to the cache — bounds, constraint and feasibility
failures write Invalid, and the (NaN-free) collision outcome writes the
collision verdict; the Constrained boolean overload writes back on every
path.  In the distance overloads, only bounds and constraint failures
write back (the Constrained variant's constraint failure writing Invalid
without a distance); feasibility failure and the collision outcome return
with the cache block untouched. -/
theorem cache_writeback_per_path (c : StateValidity.StateValidityChecker)
    (env : StateValidity.Env) (s : StateValidity.OmplState)
    (w : StateValidity.WrappedState) (d0 : ℚ) (verbose : Bool)
    (hs : s.cache.validity_known = false)
    (hw : w.ambient.cache.validity_known = false) :
    (env.satisfiesBounds s.vals = false →
      (StateValidity.StateValidityChecker.isValid c env s verbose).cache
        = s.cache.markInvalid)
  ∧ (env.satisfiesBounds s.vals = true →
      (env.hasPathConstraints
        && !((env.decide (env.copyToRobotState s.vals) verbose).1)) = true →
      (StateValidity.StateValidityChecker.isValid c env s verbose).cache
        = s.cache.markInvalid)
  ∧ (env.satisfiesBounds s.vals = true →
      (env.hasPathConstraints
        && !((env.decide (env.copyToRobotState s.vals) verbose).1)) = false →
      env.isStateFeasible (env.copyToRobotState s.vals) verbose = false →
      (StateValidity.StateValidityChecker.isValid c env s verbose).cache
        = s.cache.markInvalid)
  ∧ (env.satisfiesBounds s.vals = true →
      (env.hasPathConstraints
        && !((env.decide (env.copyToRobotState s.vals) verbose).1)) = false →
      env.isStateFeasible (env.copyToRobotState s.vals) verbose = true →
      StateValidity.hasNaN
        (env.copyJointGroupPositions (env.copyToRobotState s.vals)) = false →
      (StateValidity.StateValidityChecker.isValid c env s verbose).cache.validity_known
        = true)
  ∧ (StateValidity.ConstrainedPlanningStateValidityChecker.isValid
        c env w verbose).cache.validity_known = true
  ∧ (env.satisfiesBounds s.vals = false →
      (StateValidity.StateValidityChecker.isValidDist c env s d0 verbose).cache
        = s.cache.markInvalidDist 0)
  ∧ (env.satisfiesBounds s.vals = true →
      (env.hasPathConstraints
        && !((env.decide (env.copyToRobotState s.vals) verbose).1)) = true →
      (StateValidity.StateValidityChecker.isValidDist c env s d0 verbose).cache
        = s.cache.markInvalidDist
            ((env.decide (env.copyToRobotState s.vals) verbose).2))
  ∧ (env.satisfiesBounds s.vals = true →
      (env.hasPathConstraints
        && !((env.decide (env.copyToRobotState s.vals) verbose).1)) = false →
      env.isStateFeasible (env.copyToRobotState s.vals) verbose = false →
      (StateValidity.StateValidityChecker.isValidDist c env s d0 verbose).cache
        = s.cache)
  ∧ (env.satisfiesBounds s.vals = true →
      (env.hasPathConstraints
        && !((env.decide (env.copyToRobotState s.vals) verbose).1)) = false →
      env.isStateFeasible (env.copyToRobotState s.vals) verbose = true →
      (StateValidity.StateValidityChecker.isValidDist c env s d0 verbose).cache
        = s.cache)
  ∧ (env.satisfiesBounds w.wvals = false →
      (StateValidity.ConstrainedPlanningStateValidityChecker.isValidDist
          c env w d0 verbose).cache
        = w.ambient.cache.markInvalidDist 0)
  ∧ (env.satisfiesBounds w.wvals = true →
      (env.hasPathConstraints
        && !((env.decide (env.copyToRobotState w.wvals) verbose).1)) = true →
      (StateValidity.ConstrainedPlanningStateValidityChecker.isValidDist
          c env w d0 verbose).cache
        = w.ambient.cache.markInvalid)
  ∧ (env.satisfiesBounds w.wvals = true →
      (env.hasPathConstraints
        && !((env.decide (env.copyToRobotState w.wvals) verbose).1)) = false →
      env.isStateFeasible (env.copyToRobotState w.wvals) verbose = false →
      (StateValidity.ConstrainedPlanningStateValidityChecker.isValidDist
          c env w d0 verbose).cache
        = w.ambient.cache)
  ∧ (env.satisfiesBounds w.wvals = true →
      (env.hasPathConstraints
        && !((env.decide (env.copyToRobotState w.wvals) verbose).1)) = false →
      env.isStateFeasible (env.copyToRobotState w.wvals) verbose = true →
      (StateValidity.ConstrainedPlanningStateValidityChecker.isValidDist
          c env w d0 verbose).cache
        = w.ambient.cache) := by
  refine ⟨fun h1 => ?_, fun h1 h2 => ?_, fun h1 h2 h3 => ?_, fun h1 h2 h3 h4 => ?_,
    ?_, fun h1 => ?_, fun h1 h2 => ?_, fun h1 h2 h3 => ?_, fun h1 h2 h3 => ?_,
    fun h1 => ?_, fun h1 h2 => ?_, fun h1 h2 h3 => ?_, fun h1 h2 h3 => ?_⟩
  · simp [StateValidity.StateValidityChecker.isValid,
      StateValidity.StateCache.isValidityKnown, hs, h1]
  · simp [StateValidity.StateValidityChecker.isValid,
      StateValidity.StateCache.isValidityKnown, hs, h1, h2]
  · simp [StateValidity.StateValidityChecker.isValid,
      StateValidity.StateCache.isValidityKnown, hs, h1, h2, h3]
  · simp only [StateValidity.StateValidityChecker.isValid,
      StateValidity.StateCache.isValidityKnown, hs, h1, h2, h3, h4]
    simp only [Bool.false_eq_true, if_false, Bool.not_true, Bool.not_false, if_true]
    cases hcol : (env.checkCollision
        (if verbose then c.collision_request_simple_verbose
         else c.collision_request_simple) (env.copyToRobotState s.vals)).collision <;>
      simp [hcol, StateValidity.StateCache.markValid, StateValidity.StateCache.markInvalid]
  · by_cases h1 : env.satisfiesBounds w.wvals
    · by_cases h2 : (env.hasPathConstraints
          && !((env.decide (env.copyToRobotState w.wvals) verbose).1)) = true
      · simp [StateValidity.ConstrainedPlanningStateValidityChecker.isValid,
          StateValidity.WrappedState.getState,
          StateValidity.StateCache.isValidityKnown, hw, h1, h2,
          StateValidity.StateCache.markInvalid]
      · by_cases h3 : env.isStateFeasible (env.copyToRobotState w.wvals) verbose
        · simp only [StateValidity.ConstrainedPlanningStateValidityChecker.isValid,
            StateValidity.WrappedState.getState,
            StateValidity.StateCache.isValidityKnown, hw, h1, h2, h3]
          simp only [Bool.false_eq_true, if_false, Bool.not_true, if_true]
          cases hcol : (env.checkCollision
              (if verbose then c.collision_request_simple_verbose
               else c.collision_request_simple)
              (env.copyToRobotState w.wvals)).collision <;>
            simp [hcol, StateValidity.StateCache.markValid,
              StateValidity.StateCache.markInvalid]
        · simp [StateValidity.ConstrainedPlanningStateValidityChecker.isValid,
            StateValidity.WrappedState.getState,
            StateValidity.StateCache.isValidityKnown, hw, h1, h2, h3,
            StateValidity.StateCache.markInvalid]
    · simp [StateValidity.ConstrainedPlanningStateValidityChecker.isValid,
        StateValidity.WrappedState.getState,
        StateValidity.StateCache.isValidityKnown, hw, h1,
        StateValidity.StateCache.markInvalid]
  · simp [StateValidity.StateValidityChecker.isValidDist,
      StateValidity.StateCache.isValidityKnown,
      StateValidity.StateCache.isGoalDistanceKnown, hs, h1]
  · simp [StateValidity.StateValidityChecker.isValidDist,
      StateValidity.StateCache.isValidityKnown,
      StateValidity.StateCache.isGoalDistanceKnown, hs, h1, h2]
  · simp [StateValidity.StateValidityChecker.isValidDist,
      StateValidity.StateCache.isValidityKnown,
      StateValidity.StateCache.isGoalDistanceKnown, hs, h1, h2, h3]
  · simp [StateValidity.StateValidityChecker.isValidDist,
      StateValidity.StateCache.isValidityKnown,
      StateValidity.StateCache.isGoalDistanceKnown, hs, h1, h2, h3]
  · simp [StateValidity.ConstrainedPlanningStateValidityChecker.isValidDist,
      StateValidity.WrappedState.getState,
      StateValidity.StateCache.isValidityKnown,
      StateValidity.StateCache.isGoalDistanceKnown, hw, h1]
  · simp [StateValidity.ConstrainedPlanningStateValidityChecker.isValidDist,
      StateValidity.WrappedState.getState,
      StateValidity.StateCache.isValidityKnown,
      StateValidity.StateCache.isGoalDistanceKnown, hw, h1, h2]
  · simp [StateValidity.ConstrainedPlanningStateValidityChecker.isValidDist,
      StateValidity.WrappedState.getState,
      StateValidity.StateCache.isValidityKnown,
      StateValidity.StateCache.isGoalDistanceKnown, hw, h1, h2, h3]
  · simp [StateValidity.ConstrainedPlanningStateValidityChecker.isValidDist,
      StateValidity.WrappedState.getState,
      StateValidity.StateCache.isValidityKnown,
      StateValidity.StateCache.isGoalDistanceKnown, hw, h1, h2, h3]

/-- C2 (amended) witness: the per-path write-back theorem instantiated on
concrete environments — a bounds failure writes Invalid with distance 0 in
the distance overload, while a feasibility failure and a clean collision
outcome in the distance overload leave the cache untouched. -/
theorem cache_writeback_per_path_witness :
    (StateValidity.StateValidityChecker.isValidDist StateValidity.c0
        StateValidity.envBoundsFail StateValidity.s0 5 false).cache
      = StateValidity.s0.cache.markInvalidDist 0
  ∧ (StateValidity.StateValidityChecker.isValidDist StateValidity.c0
        StateValidity.envInfeasible StateValidity.s0 5 false).cache
      = StateValidity.s0.cache
  ∧ (StateValidity.StateValidityChecker.isValidDist StateValidity.c0
        StateValidity.envAllPass StateValidity.s0 5 false).cache
      = StateValidity.s0.cache
  ∧ (StateValidity.ConstrainedPlanningStateValidityChecker.isValid StateValidity.c0
        StateValidity.envAllPass StateValidity.w0 false).cache.validity_known
      = true := by
  refine ⟨(cache_writeback_per_path StateValidity.c0 StateValidity.envBoundsFail
      StateValidity.s0 StateValidity.w0 5 false rfl rfl).2.2.2.2.2.1 rfl, ?_, ?_, ?_⟩
  · exact (cache_writeback_per_path StateValidity.c0 StateValidity.envInfeasible
      StateValidity.s0 StateValidity.w0 5 false rfl rfl).2.2.2.2.2.2.2.1 rfl rfl rfl
  · exact (cache_writeback_per_path StateValidity.c0 StateValidity.envAllPass
      StateValidity.s0 StateValidity.w0 5 false rfl rfl).2.2.2.2.2.2.2.2.1 rfl rfl rfl
  · exact (cache_writeback_per_path StateValidity.c0 StateValidity.envAllPass
      StateValidity.s0 StateValidity.w0 5 false rfl rfl).2.2.2.2.1

/-- C3 (amended): whenever the cache already holds a terminal answer
(validity known, and for the distance overloads also distance known),
every overload of both variants returns the cached verdict and cached
distance immediately with an empty collaborator trace; consequently, when
a call leaves the cache with a terminal answer, the immediately following
call on the same state evaluates no gates and returns the cached verdict. -/
theorem cache_hit_returns_cached_zero_calls (c : StateValidity.StateValidityChecker)
    (env : StateValidity.Env) (s : StateValidity.OmplState)
    (w : StateValidity.WrappedState) (d0 : ℚ) (verbose : Bool) :
    (s.cache.validity_known = true →
      StateValidity.StateValidityChecker.isValid c env s verbose
        = { valid := s.cache.marked_valid, cache := s.cache, trace := [] })
  ∧ (s.cache.validity_known = true → s.cache.distance_known = true →
      StateValidity.StateValidityChecker.isValidDist c env s d0 verbose
        = { valid := s.cache.marked_valid, dist := s.cache.distance,
            cache := s.cache, trace := [] })
  ∧ (w.ambient.cache.validity_known = true →
      StateValidity.ConstrainedPlanningStateValidityChecker.isValid c env w verbose
        = { valid := w.ambient.cache.marked_valid, cache := w.ambient.cache,
            trace := [] })
  ∧ (w.ambient.cache.validity_known = true →
      w.ambient.cache.distance_known = true →
      StateValidity.ConstrainedPlanningStateValidityChecker.isValidDist
          c env w d0 verbose
        = { valid := w.ambient.cache.marked_valid,
            dist := w.ambient.cache.distance, cache := w.ambient.cache,
            trace := [] })
  ∧ ((StateValidity.StateValidityChecker.isValid c env s verbose).cache.validity_known
        = true →
      (StateValidity.StateValidityChecker.isValid c env
        { vals := s.vals
          cache := (StateValidity.StateValidityChecker.isValid c env s verbose).cache }
        verbose).trace = [])
  ∧ ((StateValidity.StateValidityChecker.isValidDist
          c env s d0 verbose).cache.validity_known = true →
      (StateValidity.StateValidityChecker.isValidDist
          c env s d0 verbose).cache.distance_known = true →
      (StateValidity.StateValidityChecker.isValidDist c env
        { vals := s.vals
          cache := (StateValidity.StateValidityChecker.isValidDist
            c env s d0 verbose).cache }
        d0 verbose).trace = []) := by
  refine ⟨fun h1 => ?_, fun h1 h2 => ?_, fun h1 => ?_, fun h1 h2 => ?_,
    fun h1 => ?_, fun h1 h2 => ?_⟩
  · simp [StateValidity.StateValidityChecker.isValid,
      StateValidity.StateCache.isValidityKnown, StateValidity.StateCache.isMarkedValid, h1]
  · simp [StateValidity.StateValidityChecker.isValidDist,
      StateValidity.StateCache.isValidityKnown,
      StateValidity.StateCache.isGoalDistanceKnown,
      StateValidity.StateCache.isMarkedValid, h1, h2]
  · simp [StateValidity.ConstrainedPlanningStateValidityChecker.isValid,
      StateValidity.WrappedState.getState,
      StateValidity.StateCache.isValidityKnown, StateValidity.StateCache.isMarkedValid, h1]
  · simp [StateValidity.ConstrainedPlanningStateValidityChecker.isValidDist,
      StateValidity.WrappedState.getState,
      StateValidity.StateCache.isValidityKnown,
      StateValidity.StateCache.isGoalDistanceKnown,
      StateValidity.StateCache.isMarkedValid, h1, h2]
  · generalize hk : (StateValidity.StateValidityChecker.isValid c env s verbose).cache
      = K at h1 ⊢
    simp [StateValidity.StateValidityChecker.isValid,
      StateValidity.StateCache.isValidityKnown, h1]
  · generalize hk : (StateValidity.StateValidityChecker.isValidDist c env s d0 verbose).cache
      = K at h1 h2 ⊢
    simp [StateValidity.StateValidityChecker.isValidDist,
      StateValidity.StateCache.isValidityKnown,
      StateValidity.StateCache.isGoalDistanceKnown, h1, h2]

/-- C3 (amended) witness: a state whose cache holds a terminal answer is
answered from the cache with an empty collaborator trace. -/
theorem cache_hit_returns_cached_zero_calls_witness :
    StateValidity.StateValidityChecker.isValidDist StateValidity.c0
        StateValidity.envAllPass
        { vals := [StateValidity.D.fin 0]
          cache := { validity_known := true, marked_valid := false,
                     distance_known := true, distance := 9 } } 5 false
      = { valid := false, dist := 9,
          cache := { validity_known := true, marked_valid := false,
                     distance_known := true, distance := 9 },
          trace := [] } := by
  exact (cache_hit_returns_cached_zero_calls StateValidity.c0 StateValidity.envAllPass
    { vals := [StateValidity.D.fin 0]
      cache := { validity_known := true, marked_valid := false,
                 distance_known := true, distance := 9 } }
    StateValidity.w0 5 false).2.1 rfl rfl

/-- C4 (amended): on a cache miss with an attached constraint set that
reports unsatisfied, the Basic Checker's distance overload propagates the
constraint's own signed distance both into the cache (markInvalid with
that distance) and as the returned distance; the Constrained variant
instead marks the state invalid without any distance, leaving both the
cached distance fields and the caller's distance argument untouched. -/
theorem constraint_distance_propagation (c : StateValidity.StateValidityChecker)
    (env : StateValidity.Env) (s : StateValidity.OmplState)
    (w : StateValidity.WrappedState) (d0 : ℚ) (verbose : Bool)
    (hs : s.cache.validity_known = false)
    (hw : w.ambient.cache.validity_known = false)
    (hb : env.satisfiesBounds s.vals = true)
    (hbw : env.satisfiesBounds w.wvals = true)
    (hk : env.hasPathConstraints = true)
    (hns : (env.decide (env.copyToRobotState s.vals) verbose).1 = false)
    (hnw : (env.decide (env.copyToRobotState w.wvals) verbose).1 = false) :
    StateValidity.StateValidityChecker.isValidDist c env s d0 verbose
      = { valid := false, dist := (env.decide (env.copyToRobotState s.vals) verbose).2,
          cache := s.cache.markInvalidDist
            ((env.decide (env.copyToRobotState s.vals) verbose).2),
          trace := [StateValidity.Call.bounds, StateValidity.Call.translate,
                    StateValidity.Call.constraintDecide] }
  ∧ StateValidity.ConstrainedPlanningStateValidityChecker.isValidDist c env w d0 verbose
      = { valid := false, dist := d0, cache := w.ambient.cache.markInvalid,
          trace := [StateValidity.Call.bounds, StateValidity.Call.translate,
                    StateValidity.Call.constraintDecide] }
  ∧ (StateValidity.ConstrainedPlanningStateValidityChecker.isValidDist
        c env w d0 verbose).cache.distance_known
      = w.ambient.cache.distance_known := by
  refine ⟨?_, ?_, ?_⟩
  · simp [StateValidity.StateValidityChecker.isValidDist,
      StateValidity.StateCache.isValidityKnown,
      StateValidity.StateCache.isGoalDistanceKnown, hs, hb, hk, hns]
  · simp [StateValidity.ConstrainedPlanningStateValidityChecker.isValidDist,
      StateValidity.WrappedState.getState,
      StateValidity.StateCache.isValidityKnown,
      StateValidity.StateCache.isGoalDistanceKnown, hw, hbw, hk, hnw]
  · simp [StateValidity.ConstrainedPlanningStateValidityChecker.isValidDist,
      StateValidity.WrappedState.getState,
      StateValidity.StateCache.isValidityKnown,
      StateValidity.StateCache.isGoalDistanceKnown, hw, hbw, hk, hnw,
      StateValidity.StateCache.markInvalid]

/-- C4 (amended) witness: the constraint-distance theorem instantiated on
the concrete constraint-failing environment (signed distance 3, caller
distance 7). -/
theorem constraint_distance_propagation_witness :
    StateValidity.StateValidityChecker.isValidDist StateValidity.c0
        StateValidity.envConstraintFail StateValidity.s0 7 false
      = { valid := false, dist := 3,
          cache := StateValidity.s0.cache.markInvalidDist 3,
          trace := [StateValidity.Call.bounds, StateValidity.Call.translate,
                    StateValidity.Call.constraintDecide] }
  ∧ StateValidity.ConstrainedPlanningStateValidityChecker.isValidDist StateValidity.c0
        StateValidity.envConstraintFail StateValidity.w0 7 false
      = { valid := false, dist := 7,
          cache := StateValidity.w0.ambient.cache.markInvalid,
          trace := [StateValidity.Call.bounds, StateValidity.Call.translate,
                    StateValidity.Call.constraintDecide] } := by
  have h := constraint_distance_propagation StateValidity.c0
    StateValidity.envConstraintFail StateValidity.s0 StateValidity.w0 7 false
    rfl rfl rfl rfl rfl rfl rfl
  exact ⟨h.1, h.2.1⟩

/-- C5 (amended): only the Basic Checker's boolean overload implements the
NaN guard: on an uncached, in-bounds, constraint-satisfying, feasible
state whose extracted joint positions contain NaN, it returns false, never
invokes the collision collaborator, and leaves the cache untouched; the
Basic distance overload and both Constrained overloads issue the collision
query regardless. -/
theorem nan_guard_only_basic_bool (c : StateValidity.StateValidityChecker)
    (env : StateValidity.Env) (s : StateValidity.OmplState)
    (w : StateValidity.WrappedState) (d0 : ℚ) (verbose : Bool)
    (hs : s.cache.validity_known = false)
    (hw : w.ambient.cache.validity_known = false)
    (hb : env.satisfiesBounds s.vals = true)
    (hbw : env.satisfiesBounds w.wvals = true)
    (hks : (env.hasPathConstraints
      && !((env.decide (env.copyToRobotState s.vals) verbose).1)) = false)
    (hkw : (env.hasPathConstraints
      && !((env.decide (env.copyToRobotState w.wvals) verbose).1)) = false)
    (hfs : env.isStateFeasible (env.copyToRobotState s.vals) verbose = true)
    (hfw : env.isStateFeasible (env.copyToRobotState w.wvals) verbose = true)
    (hnan : StateValidity.hasNaN
      (env.copyJointGroupPositions (env.copyToRobotState s.vals)) = true) :
    (StateValidity.StateValidityChecker.isValid c env s verbose).valid = false
  ∧ (∀ r : StateValidity.CollisionRequest,
      StateValidity.Call.collision r
        ∉ (StateValidity.StateValidityChecker.isValid c env s verbose).trace)
  ∧ (StateValidity.StateValidityChecker.isValid c env s verbose).cache = s.cache
  ∧ (∃ r : StateValidity.CollisionRequest,
      StateValidity.Call.collision r
        ∈ (StateValidity.StateValidityChecker.isValidDist c env s d0 verbose).trace)
  ∧ (∃ r : StateValidity.CollisionRequest,
      StateValidity.Call.collision r
        ∈ (StateValidity.ConstrainedPlanningStateValidityChecker.isValid
            c env w verbose).trace)
  ∧ (∃ r : StateValidity.CollisionRequest,
      StateValidity.Call.collision r
        ∈ (StateValidity.ConstrainedPlanningStateValidityChecker.isValidDist
            c env w d0 verbose).trace) := by
  have hmain : StateValidity.StateValidityChecker.isValid c env s verbose
      = { valid := false, cache := s.cache,
          trace := [StateValidity.Call.bounds, StateValidity.Call.translate]
            ++ (if env.hasPathConstraints then [StateValidity.Call.constraintDecide]
                else [])
            ++ [StateValidity.Call.feasibility] } := by
    simp [StateValidity.StateValidityChecker.isValid,
      StateValidity.StateCache.isValidityKnown, hs, hb, hks, hfs, hnan]
  have hdist : StateValidity.StateValidityChecker.isValidDist c env s d0 verbose
      = { valid := !(env.checkCollision
            (if verbose then c.collision_request_with_distance_verbose
             else c.collision_request_with_distance)
            (env.copyToRobotState s.vals)).collision,
          dist := (env.checkCollision
            (if verbose then c.collision_request_with_distance_verbose
             else c.collision_request_with_distance)
            (env.copyToRobotState s.vals)).distance,
          cache := s.cache,
          trace := [StateValidity.Call.bounds, StateValidity.Call.translate]
            ++ (if env.hasPathConstraints then [StateValidity.Call.constraintDecide]
                else [])
            ++ [StateValidity.Call.feasibility,
                StateValidity.Call.collision
                  (if verbose then c.collision_request_with_distance_verbose
                   else c.collision_request_with_distance)] } := by
    simp [StateValidity.StateValidityChecker.isValidDist,
      StateValidity.StateCache.isValidityKnown,
      StateValidity.StateCache.isGoalDistanceKnown, hs, hb, hks, hfs]
  have hcb : StateValidity.ConstrainedPlanningStateValidityChecker.isValid c env w verbose
      = { valid := !(env.checkCollision
            (if verbose then c.collision_request_simple_verbose
             else c.collision_request_simple)
            (env.copyToRobotState w.wvals)).collision,
          cache := if !(env.checkCollision
              (if verbose then c.collision_request_simple_verbose
               else c.collision_request_simple)
              (env.copyToRobotState w.wvals)).collision
            then w.ambient.cache.markValid else w.ambient.cache.markInvalid,
          trace := [StateValidity.Call.bounds, StateValidity.Call.translate]
            ++ (if env.hasPathConstraints then [StateValidity.Call.constraintDecide]
                else [])
            ++ [StateValidity.Call.feasibility,
                StateValidity.Call.collision
                  (if verbose then c.collision_request_simple_verbose
                   else c.collision_request_simple)] } := by
    simp [StateValidity.ConstrainedPlanningStateValidityChecker.isValid,
      StateValidity.WrappedState.getState,
      StateValidity.StateCache.isValidityKnown, hw, hbw, hkw, hfw]
  have hcd : StateValidity.ConstrainedPlanningStateValidityChecker.isValidDist
      c env w d0 verbose
      = { valid := !(env.checkCollision
            (if verbose then c.collision_request_with_distance_verbose
             else c.collision_request_with_distance)
            (env.copyToRobotState w.wvals)).collision,
          dist := (env.checkCollision
            (if verbose then c.collision_request_with_distance_verbose
             else c.collision_request_with_distance)
            (env.copyToRobotState w.wvals)).distance,
          cache := w.ambient.cache,
          trace := [StateValidity.Call.bounds, StateValidity.Call.translate]
            ++ (if env.hasPathConstraints then [StateValidity.Call.constraintDecide]
                else [])
            ++ [StateValidity.Call.feasibility,
                StateValidity.Call.collision
                  (if verbose then c.collision_request_with_distance_verbose
                   else c.collision_request_with_distance)] } := by
    simp [StateValidity.ConstrainedPlanningStateValidityChecker.isValidDist,
      StateValidity.WrappedState.getState,
      StateValidity.StateCache.isValidityKnown,
      StateValidity.StateCache.isGoalDistanceKnown, hw, hbw, hkw, hfw]
  refine ⟨by rw [hmain], fun r => ?_, by rw [hmain], ?_, ?_, ?_⟩
  · rw [hmain]
    by_cases hpc : env.hasPathConstraints <;> simp [hpc]
  · exact ⟨(if verbose then c.collision_request_with_distance_verbose
      else c.collision_request_with_distance), by rw [hdist]; simp⟩
  · exact ⟨(if verbose then c.collision_request_simple_verbose
      else c.collision_request_simple), by rw [hcb]; simp⟩
  · exact ⟨(if verbose then c.collision_request_with_distance_verbose
      else c.collision_request_with_distance), by rw [hcd]; simp⟩

/-- C5 (amended) witness: the NaN-guard theorem instantiated on the
concrete all-pass environment with the NaN-carrying state and its wrapped
counterpart. -/
theorem nan_guard_only_basic_bool_witness :
    (StateValidity.StateValidityChecker.isValid StateValidity.c0
        StateValidity.envAllPass StateValidity.sNaN false).valid = false
  ∧ StateValidity.Call.collision (StateValidity.c0.collision_request_simple)
      ∉ (StateValidity.StateValidityChecker.isValid StateValidity.c0
          StateValidity.envAllPass StateValidity.sNaN false).trace
  ∧ (∃ r : StateValidity.CollisionRequest,
      StateValidity.Call.collision r
        ∈ (StateValidity.ConstrainedPlanningStateValidityChecker.isValid
            StateValidity.c0 StateValidity.envAllPass StateValidity.wNaN false).trace) := by
  have h := nan_guard_only_basic_bool StateValidity.c0 StateValidity.envAllPass
    StateValidity.sNaN StateValidity.wNaN 0 false rfl rfl rfl rfl rfl rfl rfl rfl rfl
  exact ⟨h.1, h.2.1 _, h.2.2.2.2.1⟩

end StateValidity
